import Mathlib

/-!
Verification development for the HVAR Hub core services.

The definitions below are a shallow embedding of the Python services in
`back/services/stock_service.py`, `back/services/unified_service.py`,
`back/services/order_service.py` and the data model in `back/db/auto_init.py`.
The SQLAlchemy session is modelled as an explicit state record that every
service function threads through; Python integers are `Int`, wall-clock
timestamps are an abstract `Nat` tick carried by the state, and raw request
strings (item types, conditions) stay `String` so the ad-hoc validation code
can be ported verbatim.  Service functions return their `(success, error)`
pair together with the state exactly as the Python code leaves the session:
in particular, mutations the code performs before a failing check are kept,
because the code has no rollback on those paths.
-/

namespace HvarHub

/-- Order lifecycle states, from `OrderStatus` in `back/db/auto_init.py`. -/
inductive OrderStatus where
  | received
  | in_maintenance
  | completed
  | failed
  | sending
  | returned
deriving DecidableEq, Repr

/-- Return classification, from `ReturnCondition` in `back/db/auto_init.py`. -/
inductive ReturnCondition where
  | valid
  | damaged
deriving DecidableEq, Repr

/-- Maintenance workflow actions, from `MaintenanceAction` in `back/db/auto_init.py`. -/
inductive MaintenanceAction where
  | received
  | start_maintenance
  | complete_maintenance
  | fail_maintenance
  | reschedule
  | send_order
  | confirm_send
  | return_order
  | move_to_returns
  | refund_or_replace
  | set_return_condition
deriving DecidableEq, Repr

/-- Service action kinds, from `ServiceActionType` in `back/db/auto_init.py`. -/
inductive ServiceActionType where
  | part_replace
  | full_replace
  | return_from_customer
deriving DecidableEq, Repr

/-- Service action states, from `ServiceActionStatus` in `back/db/auto_init.py`. -/
inductive ServiceActionStatus where
  | created
  | confirmed
  | pending_receive
  | completed
  | failed
  | cancelled
deriving DecidableEq, Repr

/-- Modelled from the spec: the `ItemCondition` enum (`valid`/`damaged`) used by
stock movements.  Its declaration is imported by `stock_service.py` from
`db.auto_init` but is absent from the sources provided under `src/`. -/
inductive ItemCondition where
  | valid
  | damaged
deriving DecidableEq, Repr

/-- Modelled from the spec: the `StockMovementType` enum (maintenance | send |
receive) tagging ledger rows; absent from the sources under `src/`. -/
inductive StockMovementType where
  | maintenance
  | send
  | receive_mv
deriving DecidableEq, Repr

/-- Modelled from the spec: a stock-bearing inventory item
("current_total_stock, current_damaged_stock").  The `Product`/`Part` models in
the provided `auto_init.py` carry only `current_stock`; the
`current_stock_damaged` column used throughout `stock_service.py` is part of
the model code missing from `src/`. -/
structure Item where
  current_stock : Int
  current_stock_damaged : Int
deriving DecidableEq, Repr

/-- Modelled from the spec: `get_valid_stock` -- "valid_stock = total − damaged
is the only quantity eligible to be sent to a customer". -/
def Item.get_valid_stock (i : Item) : Int :=
  i.current_stock - i.current_stock_damaged

/-- Whitespace test used by the model of Python's `str.strip()`. -/
def isSpaceChar (c : Char) : Bool :=
  c = ' ' ∨ c = '\t' ∨ c = '\n' ∨ c = '\r'

/-- Model of Python's `str.strip()`: drop leading and trailing whitespace. -/
def pyStrip (s : String) : String :=
  ⟨((s.data.dropWhile isSpaceChar).reverse.dropWhile isSpaceChar).reverse⟩

/-- Model of Python's `len` on a string: the number of characters. -/
def strLen (s : String) : Nat :=
  s.data.length

/-- Modelled from the spec: one ledger row of the append-only stock movement
log ("item type/id, signed quantity change, movement kind, condition, optional
order reference, optional service-action reference").  The `StockMovement`
model class is missing from the sources under `src/`; field names follow the
constructor calls in `stock_service.py`. -/
structure StockMovementRow where
  item_type : String
  item_id : Int
  quantity_change : Int
  movement_type : StockMovementType
  condition : ItemCondition
  order_id : Option Int
  service_action_id : Option Int
deriving DecidableEq, Repr

/-- Modelled from the spec: one planned/actual line item of a service action
("quantity planned-to-send, quantity actually received, condition received,
sent/received timestamps").  The `ServiceActionItem` model class is missing
from the sources under `src/`; field names follow its uses in
`stock_service.py` and `unified_service.py`; quantities default to 0. -/
structure ServiceActionItemRow where
  service_action_id : Int
  item_type : String
  item_id : Int
  quantity_to_send : Int := 0
  quantity_received : Int := 0
  condition_received : Option ItemCondition := none
  sent_at : Option Nat := none
  received_at : Option Nat := none
deriving DecidableEq, Repr

/-- A service action, following the `ServiceAction` model in
`back/db/auto_init.py` restricted to the fields the verified services read or
write. -/
structure ServiceActionRow where
  id : Int
  action_type : ServiceActionType
  status : ServiceActionStatus
  original_tracking_number : String
  new_tracking_number : Option String := none
  new_tracking_created_at : Option Nat := none
  customer_full_name : Option String := none
  customer_phone : Option String := none
  customer_second_phone : Option String := none
  refund_amount : Option Int := none
  is_integrated_with_maintenance : Bool := false
  maintenance_order_id : Option Int := none
  integrated_at : Option Nat := none
deriving DecidableEq, Repr

/-- A `ServiceActionHistory` audit row (from `back/db/auto_init.py`),
restricted to the fields written by `UnifiedService.confirm_and_send`. -/
structure ServiceActionHistoryRow where
  service_action_id : Int
  action : String
  from_status : ServiceActionStatus
  to_status : ServiceActionStatus
deriving DecidableEq, Repr

/-- Error outcomes of the stock and unified services.  Each constructor stands
for one of the Arabic error strings returned by the Python code. -/
inductive StockErr where
  | zeroQuantity          -- "تغيير الكمية يجب أن يكون غير صفر"
  | badItemType           -- invalid item_type
  | badCondition          -- invalid condition
  | badOrderId            -- order_id <= 0
  | badItemId             -- item_id <= 0
  | itemNotFound          -- "العنصر غير موجود"
  | belowZero             -- total stock would drop below zero
  | damagedBelowZero      -- damaged stock would drop below zero
  | damagedExceedsTotal   -- damaged stock exceeds total stock
  | saNotFound            -- service action does not exist
  | emptyLines            -- empty items list
  | badQuantity           -- quantity <= 0 in a line
  | insufficientStock     -- "مخزون غير كافي"
  | notReplaceAction      -- operation only for replace kinds
  | badTracking           -- new tracking number too short
  | noItemsToSend         -- no ServiceActionItem rows for the action
deriving DecidableEq, Repr

/-- Result of `StockService._update_item_stock`: success flag, the item as the
function leaves it (the Python code mutates the ORM object in place, so a
failing late check still returns a mutated item), and the error if any. -/
structure UpdateResult where
  ok : Bool
  item : Item
  err : Option StockErr
deriving DecidableEq, Repr

/-- Port of `StockService._update_item_stock` (stock_service.py lines 530-560).
The `valid` branch rejects a negative new total before writing, then writes
`current_stock` and only afterwards runs the final `damaged > total` check;
the `damaged` branch moves both counters together.  A condition string that is
neither "valid" nor "damaged" falls through to the final check unchanged,
exactly as in the Python code. -/
def updateItemStock (item : Item) (quantityChange : Int) (condition : String) :
    UpdateResult :=
  let staged : Option Item :=
    if condition = "valid" then
      let newTotal := item.current_stock + quantityChange
      if newTotal < 0 then none
      else some { item with current_stock := newTotal }
    else if condition = "damaged" then
      if quantityChange > 0 then
        some { current_stock := item.current_stock + quantityChange,
               current_stock_damaged := item.current_stock_damaged + quantityChange }
      else if item.current_stock_damaged + quantityChange < 0 then none
      else
        some { current_stock := item.current_stock + quantityChange,
               current_stock_damaged := item.current_stock_damaged + quantityChange }
    else
      some item
  match staged with
  | none =>
      if condition = "valid" then { ok := false, item := item, err := some .belowZero }
      else { ok := false, item := item, err := some .damagedBelowZero }
  | some item' =>
      if item'.current_stock_damaged > item'.current_stock then
        { ok := false, item := item', err := some .damagedExceedsTotal }
      else
        { ok := true, item := item', err := none }

/-- One line of a `send_items` request (`{'item_type', 'item_id', 'quantity'}`). -/
structure SendLine where
  item_type : String
  item_id : Int
  quantity : Int
deriving DecidableEq, Repr

/-- One line of a `receive_items`/`receive_returns` request
(`{'item_type', 'item_id', 'quantity', 'condition'}`). -/
structure ReceiveLine where
  item_type : String
  item_id : Int
  quantity : Int
  condition : String
deriving DecidableEq, Repr

/-- The SQLAlchemy session as seen by the stock and service-action workflow
code: inventory counters keyed by id, the service actions with their line
items, the movement ledger and the service-action audit history, plus the
current wall-clock tick. -/
structure StockState where
  products : List (Int × Item)
  parts : List (Int × Item)
  sas : List ServiceActionRow
  sa_items : List ServiceActionItemRow
  movements : List StockMovementRow
  sa_history : List ServiceActionHistoryRow
  now : Nat
deriving DecidableEq, Repr

/-- Lookup in an id-keyed table (`Model.query.get(id)`). -/
def getAssoc (l : List (Int × Item)) (i : Int) : Option Item :=
  (l.find? (fun p => p.1 == i)).map Prod.snd

/-- Write back a mutated row under its primary key (first match only, as a
primary key is unique). -/
def setAssoc : List (Int × Item) → Int → Item → List (Int × Item)
  | [], _, _ => []
  | (k, v) :: rest, i, nv =>
      if k = i then (k, nv) :: rest else (k, v) :: setAssoc rest i nv

/-- Port of `StockService._get_item`: dispatch on the raw item_type string. -/
def getItem (st : StockState) (itemType : String) (itemId : Int) : Option Item :=
  if itemType = "product" then getAssoc st.products itemId
  else if itemType = "part" then getAssoc st.parts itemId
  else none

/-- Write a mutated item back into the table `_get_item` found it in. -/
def setItem (st : StockState) (itemType : String) (itemId : Int) (v : Item) :
    StockState :=
  if itemType = "product" then { st with products := setAssoc st.products itemId v }
  else if itemType = "part" then { st with parts := setAssoc st.parts itemId v }
  else st

/-- Lookup of a service action by id (`ServiceAction.query.get`). -/
def lookupSA (st : StockState) (saId : Int) : Option ServiceActionRow :=
  st.sas.find? (fun sa => sa.id == saId)

/-- Port of `StockService._validate_maintenance_inputs`. -/
def validateMaintenanceInputs (orderId : Int) (itemType : String) (itemId : Int)
    (quantityChange : Int) (condition : String) : Option StockErr :=
  if quantityChange = 0 then some .zeroQuantity
  else if itemType ≠ "product" ∧ itemType ≠ "part" then some .badItemType
  else if condition ≠ "valid" ∧ condition ≠ "damaged" then some .badCondition
  else if orderId ≤ 0 then some .badOrderId
  else if itemId ≤ 0 then some .badItemId
  else none

/-- Per-line checks of `StockService._validate_send_inputs`. -/
def checkSendLine (l : SendLine) : Option StockErr :=
  if l.item_type ≠ "product" ∧ l.item_type ≠ "part" then some .badItemType
  else if l.quantity ≤ 0 then some .badQuantity
  else none

/-- Port of `StockService._validate_send_inputs` (first failing line wins). -/
def validateSendInputs (lines : List SendLine) : Option StockErr :=
  if lines.isEmpty then some .emptyLines
  else lines.findSome? checkSendLine

/-- Per-line checks of `StockService._validate_receive_inputs`. -/
def checkReceiveLine (l : ReceiveLine) : Option StockErr :=
  if l.item_type ≠ "product" ∧ l.item_type ≠ "part" then some .badItemType
  else if l.quantity ≤ 0 then some .badQuantity
  else if l.condition ≠ "valid" ∧ l.condition ≠ "damaged" then some .badCondition
  else none

/-- Port of `StockService._validate_receive_inputs`. -/
def validateReceiveInputs (lines : List ReceiveLine) : Option StockErr :=
  if lines.isEmpty then some .emptyLines
  else lines.findSome? checkReceiveLine

/-- Outcome of a stock operation: success flag, error, and the session state
exactly as the Python function leaves it. -/
structure StockResult where
  ok : Bool
  err : Option StockErr
  state : StockState
deriving DecidableEq, Repr

/-- Port of `StockService.maintenance_adjustment` (stock_service.py lines
28-104): validate, fetch the item, mutate its counters in place, and append
one MAINTENANCE ledger row only on success.  When `_update_item_stock` fails
its late `damaged > total` check the already-mutated counters stay in the
session, exactly as in the Python code. -/
def maintenanceAdjustment (st : StockState) (orderId : Int) (itemType : String)
    (itemId : Int) (quantityChange : Int) (condition : String) : StockResult :=
  match validateMaintenanceInputs orderId itemType itemId quantityChange condition with
  | some e => { ok := false, err := some e, state := st }
  | none =>
    match getItem st itemType itemId with
    | none => { ok := false, err := some .itemNotFound, state := st }
    | some item =>
      let r := updateItemStock item quantityChange condition
      let st1 := setItem st itemType itemId r.item
      if r.ok then
        { ok := true, err := none,
          state := { st1 with movements := st1.movements ++
            [{ item_type := itemType, item_id := itemId,
               quantity_change := quantityChange,
               movement_type := .maintenance,
               condition := if condition = "valid" then .valid else .damaged,
               order_id := some orderId, service_action_id := none }] } }
      else
        { ok := false, err := r.err, state := st1 }

/-- Update the first `ServiceActionItem` row matching
`(service_action_id, item_type, item_id)` -- the `filter_by(...).first()`
pattern of the Python code. -/
def updateFirstSAItem (l : List ServiceActionItemRow) (saId : Int) (t : String)
    (i : Int) (f : ServiceActionItemRow → ServiceActionItemRow) :
    List ServiceActionItemRow :=
  match l with
  | [] => []
  | x :: rest =>
      if x.service_action_id = saId ∧ x.item_type = t ∧ x.item_id = i then
        f x :: rest
      else
        x :: updateFirstSAItem rest saId t i f

/-- Whether some `ServiceActionItem` row matches the key. -/
def hasSAItem (l : List ServiceActionItemRow) (saId : Int) (t : String) (i : Int) :
    Bool :=
  l.any (fun x => x.service_action_id == saId && x.item_type == t && x.item_id == i)

/-- The "update or create ServiceActionItem" block of `send_items`: stamp the
planned quantity and `sent_at` on the existing row, or insert a fresh one. -/
def upsertSentSAItem (st : StockState) (saId : Int) (t : String) (i : Int)
    (q : Int) : StockState :=
  if hasSAItem st.sa_items saId t i then
    { st with sa_items := (updateFirstSAItem st.sa_items saId t i
        (fun x => { x with quantity_to_send := q, sent_at := some st.now })) }
  else
    { st with sa_items := st.sa_items ++
        [{ service_action_id := saId, item_type := t, item_id := i,
           quantity_to_send := q, sent_at := some st.now }] }

/-- The "update or create ServiceActionItem" block of `receive_items` and
`receive_returns`: stamp received quantity, condition and `received_at`. -/
def upsertReceivedSAItem (st : StockState) (saId : Int) (t : String) (i : Int)
    (q : Int) (c : ItemCondition) : StockState :=
  if hasSAItem st.sa_items saId t i then
    { st with sa_items := (updateFirstSAItem st.sa_items saId t i
        (fun x => { x with quantity_received := q, condition_received := some c,
                           received_at := some st.now })) }
  else
    { st with sa_items := st.sa_items ++
        [{ service_action_id := saId, item_type := t, item_id := i,
           quantity_received := q, condition_received := some c,
           received_at := some st.now }] }

/-- Append one row to the movement ledger. -/
def addMovement (st : StockState) (m : StockMovementRow) : StockState :=
  { st with movements := st.movements ++ [m] }

/-- The per-line loop of `StockService.send_items` (stock_service.py lines
138-199).  Each line is looked up, checked against `get_valid_stock`, debited
with `_update_item_stock(item, -quantity, 'valid')`, paired with one SEND
ledger row, and its `ServiceActionItem` stamped.  A failing line returns
immediately, keeping the debits of all earlier lines in the session (the
Python code performs no rollback here). -/
def sendLoop (saId : Int) : StockState → List SendLine → StockResult
  | st, [] => { ok := true, err := none, state := st }
  | st, l :: rest =>
    match getItem st l.item_type l.item_id with
    | none => { ok := false, err := some .itemNotFound, state := st }
    | some item =>
      if item.get_valid_stock < l.quantity then
        { ok := false, err := some .insufficientStock, state := st }
      else
        let r := updateItemStock item (-l.quantity) "valid"
        let st1 := setItem st l.item_type l.item_id r.item
        if r.ok then
          let st2 := addMovement st1
            { item_type := l.item_type, item_id := l.item_id,
              quantity_change := -l.quantity, movement_type := .send,
              condition := .valid, order_id := none,
              service_action_id := some saId }
          let st3 := upsertSentSAItem st2 saId l.item_type l.item_id l.quantity
          sendLoop saId st3 rest
        else
          { ok := false, err := r.err, state := st1 }

/-- Port of `StockService.send_items` (stock_service.py lines 106-213):
check the service action exists, validate the request lines, then run the
per-line loop. -/
def sendItems (st : StockState) (saId : Int) (lines : List SendLine) :
    StockResult :=
  match lookupSA st saId with
  | none => { ok := false, err := some .saNotFound, state := st }
  | some _ =>
    match validateSendInputs lines with
    | some e => { ok := false, err := some e, state := st }
    | none => sendLoop saId st lines

/-- The per-line loop shared verbatim by `StockService.receive_items`
(stock_service.py lines 247-310) and `StockService.receive_returns` (lines
364-427); the two Python methods differ only in the Arabic note attached to
the ledger row.  Each line credits the item with
`_update_item_stock(item, +quantity, condition)`, appends one RECEIVE ledger
row and stamps the `ServiceActionItem`.  As in `send_items`, a failing line
keeps the credits of earlier lines in the session. -/
def receiveLoop (saId : Int) : StockState → List ReceiveLine → StockResult
  | st, [] => { ok := true, err := none, state := st }
  | st, l :: rest =>
    match getItem st l.item_type l.item_id with
    | none => { ok := false, err := some .itemNotFound, state := st }
    | some item =>
      let r := updateItemStock item l.quantity l.condition
      let st1 := setItem st l.item_type l.item_id r.item
      if r.ok then
        let c : ItemCondition := if l.condition = "valid" then .valid else .damaged
        let st2 := addMovement st1
          { item_type := l.item_type, item_id := l.item_id,
            quantity_change := l.quantity, movement_type := .receive_mv,
            condition := c, order_id := none, service_action_id := some saId }
        let st3 := upsertReceivedSAItem st2 saId l.item_type l.item_id l.quantity c
        receiveLoop saId st3 rest
      else
        { ok := false, err := r.err, state := st1 }

/-- Port of `StockService.receive_items` (stock_service.py lines 215-326). -/
def receiveItems (st : StockState) (saId : Int) (lines : List ReceiveLine) :
    StockResult :=
  match lookupSA st saId with
  | none => { ok := false, err := some .saNotFound, state := st }
  | some _ =>
    match validateReceiveInputs lines with
    | some e => { ok := false, err := some e, state := st }
    | none => receiveLoop saId st lines

/-- Port of `StockService.receive_returns` (stock_service.py lines 328-443);
identical to `receive_items` up to the ledger note, which is not modelled. -/
def receiveReturns (st : StockState) (saId : Int) (lines : List ReceiveLine) :
    StockResult :=
  match lookupSA st saId with
  | none => { ok := false, err := some .saNotFound, state := st }
  | some _ =>
    match validateReceiveInputs lines with
    | some e => { ok := false, err := some e, state := st }
    | none => receiveLoop saId st lines

/-- Replace the first service action with the given id. -/
def updateFirstSA (l : List ServiceActionRow) (saId : Int)
    (f : ServiceActionRow → ServiceActionRow) : List ServiceActionRow :=
  match l with
  | [] => []
  | x :: rest => if x.id = saId then f x :: rest else x :: updateFirstSA rest saId f

/-- Port of `UnifiedService.confirm_and_send` (unified_service.py lines
460-542): only for replace kinds; requires a trimmed tracking number of at
least 3 characters and at least one `ServiceActionItem` row; rebuilds the
send lines from the planned quantities and calls `send_items`; on success sets
the action CONFIRMED, stores the tracking number and appends one history row
(with `from_status` hard-coded to CREATED, as in the Python code).  Note the
function never checks the action's current status, and a `send_items` failure
is returned without rolling back its partial debits. -/
def confirmAndSend (st : StockState) (saId : Int) (newTracking : String) :
    StockResult :=
  match lookupSA st saId with
  | none => { ok := false, err := some .saNotFound, state := st }
  | some sa =>
    if sa.action_type ≠ .part_replace ∧ sa.action_type ≠ .full_replace then
      { ok := false, err := some .notReplaceAction, state := st }
    else if newTracking = "" ∨ strLen (pyStrip newTracking) < 3 then
      { ok := false, err := some .badTracking, state := st }
    else
      let serviceItems := st.sa_items.filter (fun x => x.service_action_id == saId)
      if serviceItems.isEmpty then
        { ok := false, err := some .noItemsToSend, state := st }
      else
        let lines := serviceItems.map (fun x =>
          { item_type := x.item_type, item_id := x.item_id,
            quantity := x.quantity_to_send : SendLine })
        let r := sendItems st saId lines
        if r.ok then
          let st1 := r.state
          let st2 := { st1 with
            sas := updateFirstSA st1.sas saId (fun x =>
              { x with status := .confirmed,
                       new_tracking_number := some (pyStrip newTracking),
                       new_tracking_created_at := some st1.now }),
            sa_history := st1.sa_history ++
              [{ service_action_id := saId, action := "confirm_and_send",
                 from_status := .created, to_status := .confirmed }] }
          { ok := true, err := none, state := st2 }
        else
          { ok := false, err := r.err, state := r.state }

/-- An `orders` table row as created by the unified coordinator, restricted to
the fields `integrate_with_maintenance_cycle` writes (auto_init.py `Order`). -/
structure CoordOrderRow where
  id : Int
  tracking_number : String
  status : OrderStatus
  is_service_action_order : Bool
  service_action_id : Option Int
  customer_name : Option String
  customer_phone : Option String
  customer_second_phone : Option String
  scanned_at : Option Nat
  received_at : Option Nat
deriving DecidableEq, Repr

/-- A `MaintenanceHistory` audit row (auto_init.py), restricted to the fields
relevant here. -/
structure MaintHistoryRow where
  order_id : Int
  action : MaintenanceAction
deriving DecidableEq, Repr

/-- Error outcomes of `integrate_with_maintenance_cycle`. -/
inductive CoordErr where
  | trackingRequired      -- "رقم تتبع إجراء الخدمة مطلوب"
  | noMatchingAction      -- no service action with this follow-up tracking
  | notPendingReceive     -- action status is not PENDING_RECEIVE
  | storageError          -- Order.save() raised (e.g. duplicate unique tracking_number)
deriving DecidableEq, Repr

/-- The session state seen by the unified coordinator: service actions, the
orders table (tracking_number is declared unique in auto_init.py), the
maintenance history table, the next surrogate order id and the clock. -/
structure CoordState where
  sas : List ServiceActionRow
  orders : List CoordOrderRow
  maint_history : List MaintHistoryRow
  next_order_id : Int
  now : Nat
deriving DecidableEq, Repr

/-- Outcome of `integrate_with_maintenance_cycle`. -/
structure CoordResult where
  ok : Bool
  order : Option CoordOrderRow
  err : Option CoordErr
  state : CoordState
deriving DecidableEq, Repr

/-- Port of `UnifiedService.integrate_with_maintenance_cycle`
(unified_service.py lines 176-227): find the service action by its follow-up
tracking number, require status PENDING_RECEIVE, create a new RECEIVED order
pre-filled from the action's customer fields, append one RECEIVED maintenance
history row, and flag the action integrated (setting
`is_integrated_with_maintenance`, `integrated_at` and `maintenance_order_id`;
the status field is not touched).  The function never checks
`is_integrated_with_maintenance`; if an order with the same tracking number
already exists, `Order(...).save()` raises on the unique `tracking_number`
column and the `except` branch rolls back and returns an error. -/
def integrateWithMaintenanceCycle (st : CoordState) (tracking : String) :
    CoordResult :=
  if tracking = "" then
    { ok := false, order := none, err := some .trackingRequired, state := st }
  else
    match st.sas.find? (fun sa => sa.new_tracking_number == some tracking) with
    | none =>
        { ok := false, order := none, err := some .noMatchingAction, state := st }
    | some sa =>
      if sa.status ≠ .pending_receive then
        { ok := false, order := none, err := some .notPendingReceive, state := st }
      else if st.orders.any (fun o => o.tracking_number == tracking) then
        { ok := false, order := none, err := some .storageError, state := st }
      else
        let oid := st.next_order_id
        let order : CoordOrderRow :=
          { id := oid, tracking_number := tracking, status := .received,
            is_service_action_order := true, service_action_id := some sa.id,
            customer_name := sa.customer_full_name,
            customer_phone := sa.customer_phone,
            customer_second_phone := sa.customer_second_phone,
            scanned_at := some st.now, received_at := some st.now }
        let sa' := { sa with is_integrated_with_maintenance := true,
                             integrated_at := some st.now,
                             maintenance_order_id := some oid }
        { ok := true, order := some order, err := none,
          state := { st with
            orders := st.orders ++ [order],
            maint_history := st.maint_history ++ [{ order_id := oid, action := .received }],
            sas := updateFirstSA st.sas sa.id (fun _ => sa'),
            next_order_id := oid + 1 } }

/-- The workflow-relevant slice of an `orders` row (auto_init.py `Order`):
status, return classification, the per-stage timestamps written by
`perform_action`, and the payload-carried fields. -/
structure OrderRow where
  status : OrderStatus
  return_condition : Option ReturnCondition := none
  maintenance_started_at : Option Nat := none
  maintenance_completed_at : Option Nat := none
  maintenance_failed_at : Option Nat := none
  sent_at : Option Nat := none
  rescheduled_at : Option Nat := none
  returned_at : Option Nat := none
  new_tracking_number : Option String := none
  new_cod_amount : Option Int := none
  is_refund_or_replace : Bool := false
  is_action_completed : Bool := false
deriving DecidableEq, Repr

/-- The `action_data` payload dict of `perform_action`.  Only the keys the
code reads are modelled; `none` on a field is an absent (or Python-falsy)
key.  The COD amount is modelled as an integer: the code only converts it
with `float(...)` and compares it with zero. -/
structure ActionData where
  new_tracking_number : Option String := none
  new_cod : Option Int := none
  notes : Option String := none
  return_condition : Option String := none
deriving DecidableEq, Repr

/-- A `MaintenanceHistory` row as appended by `perform_action`. -/
structure HistoryEntry where
  action : MaintenanceAction
  notes : String
  action_data : Option ActionData
  timestamp : Nat
deriving DecidableEq, Repr

/-- Error outcomes of `OrderService.perform_action` and
`validate_action_data`. -/
inductive OrderErr where
  | orderNotFound            -- "الطلب غير موجود"
  | notReturnedList          -- set_return_condition outside RETURNED
  | invalidAction            -- action not in ACTION_STATUS_MAP
  | transitionNotAllowed     -- "لا يمكن الانتقال من … إلى …"
  | returnConditionRequired  -- return-related action without a condition
  | badTrackingLength        -- tracking number not between 3 and 50 chars
  | negativeCod              -- COD amount negative
  | notesTooLong             -- notes above 1000 chars
deriving DecidableEq, Repr

/-- Port of `Order.can_transition_to` (auto_init.py lines 261-272): the
transition table keyed by current status; SENDING and RETURNED are final. -/
def canTransitionTo (current target : OrderStatus) : Bool :=
  match current with
  | .received => target = .in_maintenance ∨ target = .returned
  | .in_maintenance => target = .completed ∨ target = .failed
  | .completed => target = .sending
  | .failed => target = .in_maintenance ∨ target = .sending ∨
               target = .returned ∨ target = .completed
  | .sending => False
  | .returned => False

/-- Port of `ACTION_STATUS_MAP` (auto_init.py lines 584-596);
`set_return_condition` has no entry. -/
def actionStatusMap : MaintenanceAction → Option OrderStatus
  | .received => some .received
  | .start_maintenance => some .in_maintenance
  | .complete_maintenance => some .completed
  | .fail_maintenance => some .failed
  | .reschedule => some .in_maintenance
  | .send_order => some .sending
  | .confirm_send => some .sending
  | .return_order => some .returned
  | .move_to_returns => some .returned
  | .refund_or_replace => some .completed
  | .set_return_condition => none

/-- The actions whose payload must carry a return condition. -/
def isReturnRelated (a : MaintenanceAction) : Bool :=
  a = .move_to_returns ∨ a = .return_order ∨ a = .set_return_condition

/-- Port of `OrderService.validate_action_data` (order_service.py lines
542-581).  A `none` payload is the Python falsy (`None` or `{}`) case.  The
truthiness guards are kept: an empty tracking string, a zero COD and empty
notes are skipped exactly as falsy values are in Python. -/
def validateActionData (action : MaintenanceAction) (ad : Option ActionData) :
    Option OrderErr :=
  match ad with
  | none => if isReturnRelated action then some .returnConditionRequired else none
  | some d =>
    if (match d.new_tracking_number with
        | some s => s != "" && (strLen (pyStrip s) < 3 || strLen (pyStrip s) > 50)
        | none => false) then some .badTrackingLength
    else if (match d.new_cod with
        | some c => c != 0 && c < 0
        | none => false) then some .negativeCod
    else if (match d.notes with
        | some n => n != "" && strLen (pyStrip n) > 1000
        | none => false) then some .notesTooLong
    else if isReturnRelated action ∧
        d.return_condition ≠ some "valid" ∧ d.return_condition ≠ some "damaged" then
      some .returnConditionRequired
    else none

/-- Outcome of `perform_action` on one order: success flag, the order as the
session holds it afterwards, the appended history row if any, and the error. -/
structure ActionResult where
  ok : Bool
  order : OrderRow
  history : Option HistoryEntry
  err : Option OrderErr
deriving DecidableEq, Repr

/-- Port of `OrderService.perform_action` (order_service.py lines 430-540),
after the order has been fetched.  `set_return_condition` is special-cased
first (requires status RETURNED, does not change status); every other action
maps to a target status, is rejected if `can_transition_to` denies it, then
the payload is validated, the status and the action's stage timestamp are
written, payload-carried fields are stored, and one history row is appended.
All rejection paths return before any mutation. -/
def performAction (o : OrderRow) (action : MaintenanceAction) (notes : String)
    (actionData : Option ActionData) (now : Nat) : ActionResult :=
  if action = .set_return_condition then
    if o.status ≠ .returned then
      { ok := false, order := o, history := none, err := some .notReturnedList }
    else
      match validateActionData action actionData with
      | some e => { ok := false, order := o, history := none, err := some e }
      | none =>
        let rc := (actionData.map (fun d => d.return_condition)).join
        let o1 := { o with return_condition := (some
          (if rc = some "valid" then ReturnCondition.valid else ReturnCondition.damaged)) }
        { ok := true, order := o1,
          history := some ({ action := action, notes := pyStrip notes,
                             action_data := actionData, timestamp := now }),
          err := none }
  else
    match actionStatusMap action with
    | none => { ok := false, order := o, history := none, err := some .invalidAction }
    | some newStatus =>
      if ¬ canTransitionTo o.status newStatus then
        { ok := false, order := o, history := none, err := some .transitionNotAllowed }
      else
        match validateActionData action actionData with
        | some e => { ok := false, order := o, history := none, err := some e }
        | none =>
          let o1 := { o with status := newStatus }
          let o2 :=
            match action with
            | .start_maintenance => { o1 with maintenance_started_at := some now }
            | .complete_maintenance => { o1 with maintenance_completed_at := some now }
            | .fail_maintenance => { o1 with maintenance_failed_at := some now }
            | .send_order => { o1 with sent_at := some now }
            | .reschedule => { o1 with rescheduled_at := some now }
            | .return_order => { o1 with returned_at := some now }
            | .move_to_returns => { o1 with returned_at := some now }
            | _ => o1
          let o3 :=
            match actionData with
            | none => o2
            | some d =>
              let oa :=
                match action with
                | .send_order | .refund_or_replace =>
                  let ot := match d.new_tracking_number with
                    | some s => if s ≠ "" then
                        { o2 with new_tracking_number := some (pyStrip s) } else o2
                    | none => o2
                  (match d.new_cod with
                   | some c => if c ≠ 0 then { ot with new_cod_amount := some c } else ot
                   | none => ot)
                | _ => o2
              let ob :=
                match action with
                | .move_to_returns | .return_order =>
                  (match d.return_condition with
                   | some rc =>
                      if rc = "valid" then { oa with return_condition := some .valid }
                      else if rc = "damaged" then { oa with return_condition := some .damaged }
                      else oa
                   | none => oa)
                | _ => oa
              let oc :=
                match action with
                | .refund_or_replace =>
                  { ob with is_refund_or_replace := true, is_action_completed := true }
                | _ => ob
              match action with
              | .send_order => { oc with is_action_completed := true }
              | _ => oc
          { ok := true, order := o3,
            history := some ({ action := action, notes := pyStrip notes,
                               action_data := actionData, timestamp := now }),
            err := none }

/-- One call to one of the four stock operations of `StockService`, with the
arguments the caller supplies. -/
inductive StockOp where
  | maint (orderId : Int) (itemType : String) (itemId : Int)
      (quantityChange : Int) (condition : String)
  | send (saId : Int) (lines : List SendLine)
  | receive_op (saId : Int) (lines : List ReceiveLine)
  | receiveRet (saId : Int) (lines : List ReceiveLine)
deriving DecidableEq, Repr

/-- Dispatch one stock operation. -/
def applyStockOp (st : StockState) : StockOp → StockResult
  | .maint oid t i q c => maintenanceAdjustment st oid t i q c
  | .send sa ls => sendItems st sa ls
  | .receive_op sa ls => receiveItems st sa ls
  | .receiveRet sa ls => receiveReturns st sa ls

/-- Run a sequence of stock operations, keeping the session state each call
leaves behind whether it succeeds or is rejected. -/
def runStockOps (st : StockState) : List StockOp → StockState
  | [] => st
  | op :: rest => runStockOps (applyStockOp st op).state rest

/-- All operations of the sequence report success when run in order. -/
def stockOpsSucceed (st : StockState) : List StockOp → Bool
  | [] => true
  | op :: rest =>
      (applyStockOp st op).ok && stockOpsSucceed (applyStockOp st op).state rest

/-- The stock invariant claimed by the spec for an item:
`0 ≤ current_stock_damaged ≤ current_stock`. -/
def Item.stockInvariant (i : Item) : Prop :=
  0 ≤ i.current_stock_damaged ∧ i.current_stock_damaged ≤ i.current_stock

instance (i : Item) : Decidable i.stockInvariant := by
  unfold Item.stockInvariant
  infer_instance

/-- Total stock counter of an item in the state (0 when absent). -/
def totalStockAt (st : StockState) (t : String) (i : Int) : Int :=
  match getItem st t i with
  | some it => it.current_stock
  | none => 0

/-- Sum of the signed `quantity_change` of all ledger rows for one item. -/
def movementSum (ms : List StockMovementRow) (t : String) (i : Int) : Int :=
  ((ms.filter (fun m => m.item_type == t && m.item_id == i)).map
    (fun m => m.quantity_change)).sum

/-- One `perform_action` call: the action with its request payload and the
wall-clock tick at which it runs. -/
structure WorkflowOp where
  action : MaintenanceAction
  notes : String := ""
  action_data : Option ActionData := none
  now : Nat := 0
deriving DecidableEq, Repr

/-- One order together with its owned maintenance history rows. -/
structure OrderState where
  order : OrderRow
  history : List HistoryEntry
deriving DecidableEq, Repr

/-- Apply one workflow action, appending the history row when one is
produced (rejections produce none). -/
def applyWorkflowOp (s : OrderState) (op : WorkflowOp) : OrderState :=
  let r := performAction s.order op.action op.notes op.action_data op.now
  { order := r.order,
    history := s.history ++ (match r.history with | some h => [h] | none => []) }

/-- Run a sequence of workflow actions. -/
def runWorkflowOps (s : OrderState) : List WorkflowOp → OrderState
  | [] => s
  | op :: rest => runWorkflowOps (applyWorkflowOp s op) rest

/-- The order invariant claimed by the spec: the status is one of the six
defined states (immediate in this typed model) and the return classification
is only ever set while the order is RETURNED. -/
def OrderRow.orderInvariant (o : OrderRow) : Prop :=
  (o.status = .received ∨ o.status = .in_maintenance ∨ o.status = .completed ∨
   o.status = .failed ∨ o.status = .sending ∨ o.status = .returned) ∧
  (o.return_condition ≠ none → o.status = .returned)

instance (o : OrderRow) : Decidable o.orderInvariant := by
  unfold OrderRow.orderInvariant
  infer_instance

/-- A service action row with only the always-required fields set, used by the
concrete example states below. -/
def mkSA (i : Int) (t : ServiceActionType) (s : ServiceActionStatus) :
    ServiceActionRow :=
  { id := i, action_type := t, status := s, original_tracking_number := "ORIG" }

/-- Example session: one product with total stock 5 of which 3 damaged. -/
def stateFiveThree : StockState :=
  { products := [(1, ⟨5, 3⟩)], parts := [],
    sas := [mkSA 1 .part_replace .created],
    sa_items := [], movements := [], sa_history := [], now := 0 }

/-- Example session: one product with total stock 10 of which 1 damaged
(valid = 9), as in Scenario B of the spec. -/
def stateTenOne : StockState :=
  { products := [(1, ⟨10, 1⟩)], parts := [],
    sas := [mkSA 1 .part_replace .created],
    sa_items := [], movements := [], sa_history := [], now := 0 }

/-- Example session: one product with stock 20/2 (valid = 18), one service
action, as in Scenario A of the spec. -/
def stateTwentyTwo : StockState :=
  { products := [(1, ⟨20, 2⟩)], parts := [],
    sas := [mkSA 1 .part_replace .created],
    sa_items := [], movements := [], sa_history := [], now := 0 }

/-- Example session for `confirm_and_send`: product stock 20/0, a CREATED
part-replace action with one planned line of quantity 5. -/
def stateConfirm : StockState :=
  { products := [(1, ⟨20, 0⟩)], parts := [],
    sas := [mkSA 1 .part_replace .created],
    sa_items := [{ service_action_id := 1, item_type := "product", item_id := 1,
                   quantity_to_send := 5 }],
    movements := [], sa_history := [], now := 0 }

/-- Example coordinator session: one PENDING_RECEIVE service action whose
follow-up tracking number is "NT1"; no orders yet. -/
def coordStart : CoordState :=
  { sas := [{ mkSA 1 .part_replace .pending_receive with
              new_tracking_number := some "NT1",
              customer_full_name := some "Customer",
              customer_phone := some "0100" }],
    orders := [], maint_history := [], next_order_id := 100, now := 7 }

/-! ### Helper lemmas -/

theorem statusSix (s : OrderStatus) :
    s = .received ∨ s = .in_maintenance ∨ s = .completed ∨ s = .failed ∨
    s = .sending ∨ s = .returned := by
  cases s <;> simp

theorem canTransitionTo_returned (t : OrderStatus) :
    canTransitionTo .returned t = false := rfl

theorem canTransitionTo_sending (t : OrderStatus) :
    canTransitionTo .sending t = false := rfl

theorem updateItemStock_valid_apply (item : Item) (q : Int)
    (h0 : 0 ≤ item.current_stock + q)
    (h1 : item.current_stock_damaged ≤ item.current_stock + q) :
    updateItemStock item q "valid" =
      { ok := true, item := { item with current_stock := item.current_stock + q },
        err := none } := by
  unfold updateItemStock
  rw [if_pos rfl]
  rw [if_neg (by omega)]
  simp only []
  rw [if_neg (by simp; omega)]

theorem updateItemStock_damaged_add (item : Item) (q : Int) (hq : 0 < q)
    (h1 : item.current_stock_damaged ≤ item.current_stock) :
    updateItemStock item q "damaged" =
      { ok := true,
        item := ⟨item.current_stock + q, item.current_stock_damaged + q⟩,
        err := none } := by
  unfold updateItemStock
  rw [if_neg (by decide), if_pos rfl, if_pos hq]
  simp only []
  rw [if_neg (by simp; omega)]

theorem updateItemStock_ok_total (item : Item) (q : Int) (c : String)
    (hc : c = "valid" ∨ c = "damaged")
    (h : (updateItemStock item q c).ok = true) :
    (updateItemStock item q c).item.current_stock = item.current_stock + q := by
  rcases hc with hc | hc <;> subst hc
  · by_cases hneg : item.current_stock + q < 0
    · simp [updateItemStock, hneg] at h
    · by_cases hexc : item.current_stock_damaged > item.current_stock + q
      · simp [updateItemStock, hneg, hexc] at h
      · simp [updateItemStock, hneg, hexc]
  · by_cases hq : q > 0
    · by_cases hexc : item.current_stock_damaged + q > item.current_stock + q
      · simp [updateItemStock, hq, hexc] at h
      · simp [updateItemStock, hq, hexc]
    · by_cases hdz : item.current_stock_damaged + q < 0
      · simp [updateItemStock, hq, hdz] at h
      · by_cases hexc : item.current_stock_damaged + q > item.current_stock + q
        · simp [updateItemStock, hq, hdz, hexc] at h
        · simp [updateItemStock, hq, hdz, hexc]

theorem getAssoc_setAssoc_self (l : List (Int × Item)) (i : Int) (v w : Item)
    (h : getAssoc l i = some w) :
    getAssoc (setAssoc l i v) i = some v := by
  induction l with
  | nil => simp [getAssoc] at h
  | cons p rest ih =>
    obtain ⟨k, u⟩ := p
    by_cases hp : k = i
    · subst hp
      simp [getAssoc, setAssoc, List.find?]
    · simp only [getAssoc, setAssoc, if_neg hp, List.find?] at *
      rw [show (k == i) = false by simp [hp]] at *
      exact ih h

theorem getAssoc_setAssoc_ne (l : List (Int × Item)) (i j : Int) (v : Item)
    (h : j ≠ i) :
    getAssoc (setAssoc l i v) j = getAssoc l j := by
  induction l with
  | nil => simp [getAssoc, setAssoc]
  | cons p rest ih =>
    obtain ⟨k, u⟩ := p
    by_cases hp : k = i
    · subst hp
      simp only [getAssoc, setAssoc, if_pos rfl, List.find?]
      rw [show (k == j) = false by simp [Ne.symm h]]
    · simp only [getAssoc, setAssoc, if_neg hp, List.find?] at *
      by_cases hkj : k = j
      · subst hkj
        simp
      · rw [show (k == j) = false by simp [hkj]]
        exact ih

theorem getItem_setItem_self (st : StockState) (t : String) (i : Int)
    (v w : Item) (h : getItem st t i = some w) :
    getItem (setItem st t i v) t i = some v := by
  by_cases hp : t = "product"
  · subst hp
    simp [getItem, setItem] at h ⊢
    exact getAssoc_setAssoc_self _ _ _ _ h
  · by_cases hq : t = "part"
    · subst hq
      simp [getItem, setItem] at h ⊢
      exact getAssoc_setAssoc_self _ _ _ _ h
    · simp [getItem, setItem, hp, hq] at h

theorem getItem_setItem_ne (st : StockState) (t : String) (i : Int) (v : Item)
    (t' : String) (i' : Int) (h : ¬ (t' = t ∧ i' = i)) :
    getItem (setItem st t i v) t' i' = getItem st t' i' := by
  by_cases ht' : t' = t
  · subst ht'
    have hi : i' ≠ i := fun hi => h ⟨rfl, hi⟩
    by_cases hp : t' = "product"
    · subst hp
      simp [getItem, setItem]
      exact getAssoc_setAssoc_ne _ _ _ _ hi
    · by_cases hq : t' = "part"
      · subst hq
        simp [getItem, setItem]
        exact getAssoc_setAssoc_ne _ _ _ _ hi
      · simp [getItem, setItem, hp, hq]
  · by_cases hp : t = "product"
    · subst hp
      simp [getItem, setItem, ht']
    · by_cases hq : t = "part"
      · subst hq
        simp [getItem, setItem, ht']
      · simp [getItem, setItem, hp, hq]

theorem setItem_sas (st : StockState) (t : String) (i : Int) (v : Item) :
    (setItem st t i v).sas = st.sas := by
  unfold setItem
  split_ifs <;> rfl

theorem setItem_movements (st : StockState) (t : String) (i : Int) (v : Item) :
    (setItem st t i v).movements = st.movements := by
  unfold setItem
  split_ifs <;> rfl

theorem setItem_now (st : StockState) (t : String) (i : Int) (v : Item) :
    (setItem st t i v).now = st.now := by
  unfold setItem
  split_ifs <;> rfl

theorem upsertSent_getItem (st : StockState) (saId : Int) (t : String) (i : Int)
    (q : Int) (t' : String) (i' : Int) :
    getItem (upsertSentSAItem st saId t i q) t' i' = getItem st t' i' := by
  unfold upsertSentSAItem
  split_ifs <;> rfl

theorem upsertSent_movements (st : StockState) (saId : Int) (t : String)
    (i : Int) (q : Int) :
    (upsertSentSAItem st saId t i q).movements = st.movements := by
  unfold upsertSentSAItem
  split_ifs <;> rfl

theorem upsertSent_sas (st : StockState) (saId : Int) (t : String)
    (i : Int) (q : Int) :
    (upsertSentSAItem st saId t i q).sas = st.sas := by
  unfold upsertSentSAItem
  split_ifs <;> rfl

theorem upsertSent_now (st : StockState) (saId : Int) (t : String)
    (i : Int) (q : Int) :
    (upsertSentSAItem st saId t i q).now = st.now := by
  unfold upsertSentSAItem
  split_ifs <;> rfl

theorem upsertReceived_getItem (st : StockState) (saId : Int) (t : String)
    (i : Int) (q : Int) (c : ItemCondition) (t' : String) (i' : Int) :
    getItem (upsertReceivedSAItem st saId t i q c) t' i' = getItem st t' i' := by
  unfold upsertReceivedSAItem
  split_ifs <;> rfl

theorem upsertReceived_movements (st : StockState) (saId : Int) (t : String)
    (i : Int) (q : Int) (c : ItemCondition) :
    (upsertReceivedSAItem st saId t i q c).movements = st.movements := by
  unfold upsertReceivedSAItem
  split_ifs <;> rfl

theorem upsertReceived_sas (st : StockState) (saId : Int) (t : String)
    (i : Int) (q : Int) (c : ItemCondition) :
    (upsertReceivedSAItem st saId t i q c).sas = st.sas := by
  unfold upsertReceivedSAItem
  split_ifs <;> rfl

theorem upsertReceived_now (st : StockState) (saId : Int) (t : String)
    (i : Int) (q : Int) (c : ItemCondition) :
    (upsertReceivedSAItem st saId t i q c).now = st.now := by
  unfold upsertReceivedSAItem
  split_ifs <;> rfl

theorem getItem_addMovement (st : StockState) (m : StockMovementRow)
    (t : String) (i : Int) :
    getItem (addMovement st m) t i = getItem st t i := rfl

theorem lookupSA_addMovement (st : StockState) (m : StockMovementRow)
    (saId : Int) :
    lookupSA (addMovement st m) saId = lookupSA st saId := rfl

theorem lookupSA_setItem (st : StockState) (t : String) (i : Int) (v : Item)
    (saId : Int) :
    lookupSA (setItem st t i v) saId = lookupSA st saId := by
  unfold lookupSA
  rw [setItem_sas]

theorem lookupSA_upsertSent (st : StockState) (saId' saId : Int) (t : String)
    (i : Int) (q : Int) :
    lookupSA (upsertSentSAItem st saId' t i q) saId = lookupSA st saId := by
  unfold lookupSA
  rw [upsertSent_sas]

theorem lookupSA_upsertReceived (st : StockState) (saId' saId : Int)
    (t : String) (i : Int) (q : Int) (c : ItemCondition) :
    lookupSA (upsertReceivedSAItem st saId' t i q c) saId = lookupSA st saId := by
  unfold lookupSA
  rw [upsertReceived_sas]

theorem movementSum_append (ms ns : List StockMovementRow) (t : String) (i : Int) :
    movementSum (ms ++ ns) t i = movementSum ms t i + movementSum ns t i := by
  simp [movementSum, List.filter_append]

theorem movementSum_single (m : StockMovementRow) (t : String) (i : Int) :
    movementSum [m] t i =
      if m.item_type = t ∧ m.item_id = i then m.quantity_change else 0 := by
  simp only [movementSum, List.filter_cons, List.filter_nil]
  by_cases h1 : m.item_type = t <;> by_cases h2 : m.item_id = i <;>
    simp [h1, h2]

/-! ### Claim theorems -/

/-- C1 (failing-input evaluation): the stock invariant `0 ≤ damaged ≤ total`
does not survive a rejected call.  On an item with total 5 / damaged 3, the
maintenance adjustment −4 `valid` is rejected with the "damaged exceeds total"
error, but the counters in the session afterwards read total 1 / damaged 3 —
`_update_item_stock` wrote `current_stock` before running its final check and
no caller rolls the mutation back. -/
theorem c1_maintenance_adjustment_rejected_breaks_invariant :
    (maintenanceAdjustment stateFiveThree 1 "product" 1 (-4) "valid").ok = false ∧
    (maintenanceAdjustment stateFiveThree 1 "product" 1 (-4) "valid").err
      = some .damagedExceedsTotal ∧
    getItem (maintenanceAdjustment stateFiveThree 1 "product" 1 (-4) "valid").state
      "product" 1 = some ⟨1, 3⟩ ∧
    ¬ Item.stockInvariant ⟨1, 3⟩ := by
  decide

/-- C2 (failing-input evaluation): `send_items` is not all-or-nothing.  On an
item with total 10 / damaged 1 (valid 9), the batch [send 9, send 10] is
rejected on its second line with the insufficient-stock error, yet the first
line's debit stays: the counter reads total 1 and one SEND ledger row of −9
has been appended. -/
theorem c2_send_items_partial_debit :
    (sendItems stateTenOne 1 [⟨"product", 1, 9⟩, ⟨"product", 1, 10⟩]).ok = false ∧
    (sendItems stateTenOne 1 [⟨"product", 1, 9⟩, ⟨"product", 1, 10⟩]).err
      = some .insufficientStock ∧
    getItem (sendItems stateTenOne 1 [⟨"product", 1, 9⟩, ⟨"product", 1, 10⟩]).state
      "product" 1 = some ⟨1, 1⟩ ∧
    (sendItems stateTenOne 1 [⟨"product", 1, 9⟩, ⟨"product", 1, 10⟩]).state.movements.length
      = 1 ∧
    movementSum (sendItems stateTenOne 1 [⟨"product", 1, 9⟩, ⟨"product", 1, 10⟩]).state.movements
      "product" 1 = -9 := by
  decide

/-- C3 (failing-input evaluation): `integrate_with_maintenance_cycle` is not
an idempotent replay.  The first call on a PENDING_RECEIVE action succeeds and
creates exactly one order row and one history row, but the second call with
the same follow-up tracking number returns an error and no order: the
integrated action still has status PENDING_RECEIVE, the integrated flag is
never checked, and creating the duplicate order fails on the unique tracking
number, so the `except` branch rolls back and reports failure instead of
returning the linked order. -/
theorem c3_integrate_replay_returns_error :
    (integrateWithMaintenanceCycle coordStart "NT1").ok = true ∧
    (integrateWithMaintenanceCycle coordStart "NT1").state.orders.length = 1 ∧
    (integrateWithMaintenanceCycle coordStart "NT1").state.maint_history.length = 1 ∧
    (integrateWithMaintenanceCycle
        (integrateWithMaintenanceCycle coordStart "NT1").state "NT1").ok = false ∧
    (integrateWithMaintenanceCycle
        (integrateWithMaintenanceCycle coordStart "NT1").state "NT1").order = none ∧
    (integrateWithMaintenanceCycle
        (integrateWithMaintenanceCycle coordStart "NT1").state "NT1").err
      = some .storageError := by
  decide

/-- C4: a workflow action whose target status is not allowed from the order's
current status is rejected with the transition error and has no side effects:
`perform_action` returns the order exactly as it was and appends no history
row. -/
theorem c4_rejected_transition_has_no_side_effects
    (o : OrderRow) (action : MaintenanceAction) (notes : String)
    (ad : Option ActionData) (now : Nat) (target : OrderStatus)
    (hmap : actionStatusMap action = some target)
    (hct : canTransitionTo o.status target = false) :
    performAction o action notes ad now =
      { ok := false, order := o, history := none,
        err := some .transitionNotAllowed } := by
  have hne : action ≠ .set_return_condition := by
    intro h
    subst h
    simp [actionStatusMap] at hmap
  unfold performAction
  rw [if_neg hne]
  simp only [hmap]
  simp [hct]

/-- Witness for C4: an order in SENDING rejects `start_maintenance` and is
left untouched. -/
theorem c4_rejected_transition_has_no_side_effects_witness :
    actionStatusMap .start_maintenance = some .in_maintenance ∧
    canTransitionTo OrderStatus.sending .in_maintenance = false ∧
    performAction { status := .sending } .start_maintenance "" none 0 =
      { ok := false, order := { status := .sending }, history := none,
        err := some .transitionNotAllowed } :=
  ⟨rfl, rfl,
    c4_rejected_transition_has_no_side_effects { status := .sending }
      .start_maintenance "" none 0 .in_maintenance rfl rfl⟩

/-- Counterexample to C6: `complete_maintenance` on an order in FAILED is not
rejected — the transition check is by target status, and COMPLETED is allowed
from FAILED (the `refund_or_replace` edge), so the call succeeds and moves the
order to COMPLETED. -/
theorem c6_complete_maintenance_succeeds_from_failed :
    (performAction { status := .failed } .complete_maintenance "" none 0).ok
      = true ∧
    (performAction { status := .failed } .complete_maintenance "" none 0).order.status
      = .completed := by
  decide

/-- C6 (amended): with a payload that passes validation, `complete_maintenance`
succeeds exactly when the order's status is IN_MAINTENANCE or FAILED — the
two statuses from which the target COMPLETED is reachable in
`can_transition_to`. -/
theorem c6_complete_maintenance_iff (o : OrderRow) (notes : String)
    (ad : Option ActionData) (now : Nat)
    (hv : validateActionData .complete_maintenance ad = none) :
    (performAction o .complete_maintenance notes ad now).ok = true ↔
      (o.status = .in_maintenance ∨ o.status = .failed) := by
  have hiff : canTransitionTo o.status .completed = true ↔
      (o.status = .in_maintenance ∨ o.status = .failed) := by
    cases h : o.status <;> simp [canTransitionTo]
  unfold performAction
  rw [if_neg (by decide)]
  simp only [actionStatusMap]
  cases hct : canTransitionTo o.status .completed
  · rw [← hiff]
    simp [hct]
  · rw [← hiff]
    simp only [hct, not_true_eq_false, if_neg]
    rw [hv]
    simp

/-- Witness for C6 (amended): an order in FAILED with an empty payload —
validation passes and the call succeeds. -/
theorem c6_complete_maintenance_iff_witness :
    validateActionData .complete_maintenance none = none ∧
    ((performAction { status := .failed } .complete_maintenance "x" none 5).ok = true ↔
      (({ status := .failed } : OrderRow).status = .in_maintenance ∨
       ({ status := .failed } : OrderRow).status = .failed)) :=
  ⟨rfl, c6_complete_maintenance_iff { status := .failed } "x" none 5 rfl⟩

/-- C10: `confirm_and_send` has no precondition on the action's status and is
not idempotent.  From a CREATED part-replace action with one planned line of
quantity 5 against a product stocked 20/0, the first call succeeds and leaves
the action CONFIRMED with stock 15; a second call on that CONFIRMED action
succeeds again and debits the line a second time, leaving stock 10 and two
SEND ledger rows. -/
theorem c10_confirm_and_send_not_idempotent :
    (confirmAndSend stateConfirm 1 "TRK12").ok = true ∧
    (lookupSA (confirmAndSend stateConfirm 1 "TRK12").state 1).map
      (fun sa => sa.status) = some .confirmed ∧
    getItem (confirmAndSend stateConfirm 1 "TRK12").state "product" 1
      = some ⟨15, 0⟩ ∧
    (confirmAndSend (confirmAndSend stateConfirm 1 "TRK12").state 1 "TRK12").ok
      = true ∧
    getItem (confirmAndSend (confirmAndSend stateConfirm 1 "TRK12").state 1 "TRK12").state
      "product" 1 = some ⟨10, 0⟩ ∧
    (confirmAndSend (confirmAndSend stateConfirm 1 "TRK12").state 1 "TRK12").state.movements.length
      = 2 := by
  decide

/-- C9: a successful integration is a frame on the service action: the new
`sas` table is exactly the old one with the matched action's
`is_integrated_with_maintenance`, `integrated_at` and `maintenance_order_id`
fields set (record-update of the found row, all other fields untouched, status
still PENDING_RECEIVE), plus exactly one new order row and one new maintenance
history row. -/
theorem c9_integrate_success_is_frame (st : CoordState) (tracking : String)
    (sa : ServiceActionRow)
    (hfind : st.sas.find? (fun x => x.new_tracking_number == some tracking)
      = some sa)
    (hstatus : sa.status = .pending_receive)
    (htr : tracking ≠ "")
    (hdup : st.orders.any (fun o => o.tracking_number == tracking) = false) :
    (integrateWithMaintenanceCycle st tracking).ok = true ∧
    (integrateWithMaintenanceCycle st tracking).state.sas =
      updateFirstSA st.sas sa.id (fun _ =>
        { sa with is_integrated_with_maintenance := true,
                  integrated_at := some st.now,
                  maintenance_order_id := some st.next_order_id }) ∧
    ({ sa with is_integrated_with_maintenance := true,
               integrated_at := some st.now,
               maintenance_order_id := some st.next_order_id }
      : ServiceActionRow).status = .pending_receive ∧
    (∃ o, (integrateWithMaintenanceCycle st tracking).order = some o ∧
      (integrateWithMaintenanceCycle st tracking).state.orders
        = st.orders ++ [o]) ∧
    (integrateWithMaintenanceCycle st tracking).state.orders.length
      = st.orders.length + 1 ∧
    (integrateWithMaintenanceCycle st tracking).state.maint_history.length
      = st.maint_history.length + 1 := by
  unfold integrateWithMaintenanceCycle
  rw [if_neg htr]
  simp only [hfind, hstatus]
  rw [if_neg (by simp)]
  simp [hdup, hstatus]

/-- Witness for C9: the frame property evaluated on the concrete coordinator
session `coordStart`. -/
theorem c9_integrate_success_is_frame_witness :
    (integrateWithMaintenanceCycle coordStart "NT1").ok = true ∧
    (integrateWithMaintenanceCycle coordStart "NT1").state.sas =
      updateFirstSA coordStart.sas
        ({ mkSA 1 .part_replace .pending_receive with
           new_tracking_number := some "NT1",
           customer_full_name := some "Customer",
           customer_phone := some "0100" } : ServiceActionRow).id
        (fun _ =>
          { ({ mkSA 1 .part_replace .pending_receive with
               new_tracking_number := some "NT1",
               customer_full_name := some "Customer",
               customer_phone := some "0100" } : ServiceActionRow) with
            is_integrated_with_maintenance := true,
            integrated_at := some coordStart.now,
            maintenance_order_id := some coordStart.next_order_id }) ∧
    ({ ({ mkSA 1 .part_replace .pending_receive with
          new_tracking_number := some "NT1",
          customer_full_name := some "Customer",
          customer_phone := some "0100" } : ServiceActionRow) with
       is_integrated_with_maintenance := true,
       integrated_at := some coordStart.now,
       maintenance_order_id := some coordStart.next_order_id }
      : ServiceActionRow).status = .pending_receive ∧
    (∃ o, (integrateWithMaintenanceCycle coordStart "NT1").order = some o ∧
      (integrateWithMaintenanceCycle coordStart "NT1").state.orders
        = coordStart.orders ++ [o]) ∧
    (integrateWithMaintenanceCycle coordStart "NT1").state.orders.length
      = coordStart.orders.length + 1 ∧
    (integrateWithMaintenanceCycle coordStart "NT1").state.maint_history.length
      = coordStart.maint_history.length + 1 :=
  c9_integrate_success_is_frame coordStart "NT1"
    ({ mkSA 1 .part_replace .pending_receive with
       new_tracking_number := some "NT1",
       customer_full_name := some "Customer",
       customer_phone := some "0100" })
    (by decide) rfl (by decide) (by decide)

/-- C7: round trip.  If an item has valid stock at least `n` (with `n > 0` and
a non-negative damaged counter), sending `n` units and then receiving `n`
units back as damaged succeeds, leaves `current_stock` at its starting value
and raises `current_stock_damaged` by exactly `n`. -/
theorem c7_send_then_receive_damaged_round_trip
    (st : StockState) (saId : Int) (t : String) (i : Int) (item : Item) (n : Int)
    (ht : t = "product" ∨ t = "part")
    (hitem : getItem st t i = some item)
    (sa : ServiceActionRow) (hlook : lookupSA st saId = some sa)
    (hn : 0 < n)
    (hd : 0 ≤ item.current_stock_damaged)
    (hv : n ≤ item.get_valid_stock) :
    (sendItems st saId [⟨t, i, n⟩]).ok = true ∧
    (receiveItems (sendItems st saId [⟨t, i, n⟩]).state saId
        [⟨t, i, n, "damaged"⟩]).ok = true ∧
    getItem (receiveItems (sendItems st saId [⟨t, i, n⟩]).state saId
        [⟨t, i, n, "damaged"⟩]).state t i
      = some ⟨item.current_stock, item.current_stock_damaged + n⟩ := by
  have hvd : n ≤ item.current_stock - item.current_stock_damaged := by
    simpa [Item.get_valid_stock] using hv
  have hupd1 : updateItemStock item (-n) "valid"
      = { ok := true,
          item := { item with current_stock := item.current_stock + -n },
          err := none } :=
    updateItemStock_valid_apply item (-n) (by omega) (by omega)
  have hchk : checkSendLine ⟨t, i, n⟩ = none := by
    rcases ht with h | h <;> subst h <;> simp [checkSendLine] <;> omega
  have hval : validateSendInputs [⟨t, i, n⟩] = none := by
    simp [validateSendInputs, List.findSome?, hchk]
  have hnv : ¬ (item.get_valid_stock < n) := by
    simp [Item.get_valid_stock]
    omega
  have hsend : sendItems st saId [⟨t, i, n⟩]
      = { ok := true, err := none,
          state := upsertSentSAItem
            (addMovement (setItem st t i
                { item with current_stock := item.current_stock + -n })
              { item_type := t, item_id := i, quantity_change := -n,
                movement_type := .send, condition := .valid,
                order_id := none, service_action_id := some saId })
            saId t i n } := by
    unfold sendItems
    rw [hlook, hval]
    simp [sendLoop, hitem, hnv, hupd1]
  have hitem1 : getItem (sendItems st saId [⟨t, i, n⟩]).state t i
      = some { item with current_stock := item.current_stock + -n } := by
    rw [hsend]
    rw [upsertSent_getItem, getItem_addMovement]
    exact getItem_setItem_self st t i _ item hitem
  have hlook1 : lookupSA (sendItems st saId [⟨t, i, n⟩]).state saId = some sa := by
    rw [hsend]
    rw [lookupSA_upsertSent, lookupSA_addMovement, lookupSA_setItem]
    exact hlook
  have hchk2 : checkReceiveLine ⟨t, i, n, "damaged"⟩ = none := by
    rcases ht with h | h <;> subst h <;> simp [checkReceiveLine] <;> omega
  have hval2 : validateReceiveInputs [⟨t, i, n, "damaged"⟩] = none := by
    simp [validateReceiveInputs, List.findSome?, hchk2]
  have hupd2 : updateItemStock
      { item with current_stock := item.current_stock + -n } n "damaged"
      = { ok := true,
          item := ⟨item.current_stock + -n + n,
                   item.current_stock_damaged + n⟩,
          err := none } :=
    updateItemStock_damaged_add _ n hn (by simp; omega)
  have hrecv : receiveItems (sendItems st saId [⟨t, i, n⟩]).state saId
      [⟨t, i, n, "damaged"⟩]
      = { ok := true, err := none,
          state := upsertReceivedSAItem
            (addMovement (setItem (sendItems st saId [⟨t, i, n⟩]).state t i
                ⟨item.current_stock + -n + n, item.current_stock_damaged + n⟩)
              { item_type := t, item_id := i, quantity_change := n,
                movement_type := .receive_mv, condition := .damaged,
                order_id := none, service_action_id := some saId })
            saId t i n .damaged } := by
    unfold receiveItems
    rw [hlook1, hval2]
    simp [receiveLoop, hitem1, hupd2]
  refine ⟨by rw [hsend], by rw [hrecv], ?_⟩
  rw [hrecv]
  rw [upsertReceived_getItem, getItem_addMovement]
  rw [getItem_setItem_self _ _ _ _ _ hitem1]
  congr 1
  have : item.current_stock + -n + n = item.current_stock := by omega
  rw [this]

/-- Witness for C7: Scenario A of the spec — item at total 20 / damaged 2,
send 5 then receive 5 damaged, ending at total 20 / damaged 7. -/
theorem c7_send_then_receive_damaged_round_trip_witness :
    (sendItems stateTwentyTwo 1 [⟨"product", 1, 5⟩]).ok = true ∧
    (receiveItems (sendItems stateTwentyTwo 1 [⟨"product", 1, 5⟩]).state 1
        [⟨"product", 1, 5, "damaged"⟩]).ok = true ∧
    getItem (receiveItems (sendItems stateTwentyTwo 1 [⟨"product", 1, 5⟩]).state 1
        [⟨"product", 1, 5, "damaged"⟩]).state "product" 1
      = some ⟨(20 : Int), (2 : Int) + 5⟩ :=
  c7_send_then_receive_damaged_round_trip stateTwentyTwo 1 "product" 1
    ⟨20, 2⟩ 5 (Or.inl rfl) (by decide) (mkSA 1 .part_replace .created)
    (by decide) (by decide) (by decide) (by decide)

theorem canTransitionTo_true_not_returned (s t : OrderStatus)
    (h : canTransitionTo s t = true) : s ≠ .returned := by
  cases s <;> simp [canTransitionTo] at h ⊢

set_option maxHeartbeats 1000000 in
theorem performAction_rc_preserved (o : OrderRow) (a : MaintenanceAction)
    (n : String) (ad : Option ActionData) (now : Nat)
    (h : o.return_condition ≠ none → o.status = .returned) :
    (performAction o a n ad now).order.return_condition ≠ none →
    (performAction o a n ad now).order.status = .returned := by
  by_cases ha : a = .set_return_condition
  · subst ha
    unfold performAction
    rw [if_pos rfl]
    by_cases hs : o.status = .returned
    · rw [if_neg (by simp [hs])]
      cases hv : validateActionData .set_return_condition ad with
      | some e => intro hne; exact h hne
      | none => intro _; simpa using hs
    · rw [if_pos (by simp [hs])]
      intro hne
      exact h hne
  · unfold performAction
    rw [if_neg ha]
    cases a <;> (try (exact absurd rfl ha)) <;>
      (split
       · intro hne
         exact h hne
       · rename_i ns hctn
         simp only [actionStatusMap, Option.some.injEq] at hctn
         subst hctn
         split
         · intro hne
           exact h hne
         · rename_i hctn2
           rw [not_not] at hctn2
           have hnr := canTransitionTo_true_not_returned _ _ (by exact_mod_cast hctn2)
           split
           · intro hne
             exact h hne
           · cases ad with
             | none =>
               dsimp only
               intro hne
               first
                 | rfl
                 | exact absurd (h hne) hnr
             | some d =>
               obtain ⟨dt, dc, dnn, drc⟩ := d
               cases dt <;> cases dc <;> cases drc <;> dsimp only <;>
                 (try split_ifs) <;> intro hne <;>
                 first
                   | rfl
                   | exact absurd (h hne) hnr)

/-- C8: for every order and every sequence of workflow actions, the status
stays one of the six defined states and the return classification is only
ever set while the order is RETURNED (equivalently, `return_condition` is
unset whenever the status is not RETURNED). -/
theorem c8_order_invariant_all_sequences (s : OrderState) (ops : List WorkflowOp)
    (h : s.order.orderInvariant) :
    (runWorkflowOps s ops).order.orderInvariant := by
  induction ops generalizing s with
  | nil => exact h
  | cons op rest ih =>
    apply ih
    obtain ⟨hmem, hrc⟩ := h
    exact ⟨statusSix _,
      performAction_rc_preserved s.order op.action op.notes op.action_data
        op.now hrc⟩

/-- Witness for C8: a freshly received order run through a concrete workflow
(start, fail, move to returns with a damaged classification, then re-classify
as valid) still satisfies the invariant. -/
theorem c8_order_invariant_all_sequences_witness :
    ({ order := { status := .received }, history := [] } : OrderState).order.orderInvariant ∧
    (runWorkflowOps { order := { status := .received }, history := [] }
      [{ action := .start_maintenance, now := 1 },
       { action := .fail_maintenance, now := 2 },
       { action := .move_to_returns,
         action_data := some { return_condition := some "damaged" }, now := 3 },
       { action := .set_return_condition,
         action_data := some { return_condition := some "valid" }, now := 4 }]).order.orderInvariant :=
  ⟨by decide,
    c8_order_invariant_all_sequences
      { order := { status := .received }, history := [] } _ (by decide)⟩

theorem totalStockAt_upsertSent (st : StockState) (saId : Int) (t0 : String)
    (i0 : Int) (q : Int) (t : String) (i : Int) :
    totalStockAt (upsertSentSAItem st saId t0 i0 q) t i = totalStockAt st t i := by
  unfold totalStockAt
  rw [upsertSent_getItem]

theorem totalStockAt_upsertReceived (st : StockState) (saId : Int) (t0 : String)
    (i0 : Int) (q : Int) (c : ItemCondition) (t : String) (i : Int) :
    totalStockAt (upsertReceivedSAItem st saId t0 i0 q c) t i
      = totalStockAt st t i := by
  unfold totalStockAt
  rw [upsertReceived_getItem]

/-- One mutated item plus one matching ledger row leave the difference
"counter minus ledger sum" unchanged for every item key. -/
theorem totalMinusSum_step (st : StockState) (t0 : String) (i0 : Int)
    (item item' : Item) (q : Int) (m : StockMovementRow)
    (hgi : getItem st t0 i0 = some item)
    (hti : item'.current_stock = item.current_stock + q)
    (hmt : m.item_type = t0) (hmi : m.item_id = i0) (hmq : m.quantity_change = q)
    (t : String) (i : Int) :
    totalStockAt (addMovement (setItem st t0 i0 item') m) t i
      - movementSum (addMovement (setItem st t0 i0 item') m).movements t i
      = totalStockAt st t i - movementSum st.movements t i := by
  have hmov : (addMovement (setItem st t0 i0 item') m).movements
      = st.movements ++ [m] := by
    unfold addMovement
    rw [setItem_movements]
  have hsum : movementSum (addMovement (setItem st t0 i0 item') m).movements t i
      = movementSum st.movements t i + (if t0 = t ∧ i0 = i then q else 0) := by
    rw [hmov, movementSum_append, movementSum_single, hmt, hmi, hmq]
  by_cases hk : t0 = t ∧ i0 = i
  · obtain ⟨h1, h2⟩ := hk
    subst h1
    subst h2
    have hget : getItem (setItem st t0 i0 item') t0 i0 = some item' :=
      getItem_setItem_self st t0 i0 item' item hgi
    have htot : totalStockAt (addMovement (setItem st t0 i0 item') m) t0 i0
        = item'.current_stock := by
      unfold totalStockAt
      rw [getItem_addMovement, hget]
    have htot0 : totalStockAt st t0 i0 = item.current_stock := by
      unfold totalStockAt
      rw [hgi]
    rw [htot, htot0, hsum, hti, if_pos (⟨rfl, rfl⟩ : t0 = t0 ∧ i0 = i0)]
    omega
  · have hk' : ¬ (t = t0 ∧ i = i0) := fun ⟨a, b⟩ => hk ⟨a.symm, b.symm⟩
    have htot : totalStockAt (addMovement (setItem st t0 i0 item') m) t i
        = totalStockAt st t i := by
      unfold totalStockAt
      rw [getItem_addMovement, getItem_setItem_ne st t0 i0 item' t i hk']
    rw [htot, hsum, if_neg hk]
    omega

theorem validateMaintenanceInputs_none (oid : Int) (t0 : String) (i0 : Int)
    (q : Int) (c : String)
    (h : validateMaintenanceInputs oid t0 i0 q c = none) :
    (t0 = "product" ∨ t0 = "part") ∧ (c = "valid" ∨ c = "damaged") := by
  unfold validateMaintenanceInputs at h
  split_ifs at h with h1 h2 h3 h4 h5
  constructor
  · by_contra hc
    push_neg at hc
    exact h2 hc
  · by_contra hc
    push_neg at hc
    exact h3 hc

theorem validateReceiveInputs_none_mem (lines : List ReceiveLine)
    (h : validateReceiveInputs lines = none) :
    ∀ l ∈ lines, l.condition = "valid" ∨ l.condition = "damaged" := by
  unfold validateReceiveInputs at h
  by_cases h1 : lines.isEmpty
  · rw [if_pos h1] at h
    simp at h
  · rw [if_neg h1] at h
    intro l hl
    have hnone : checkReceiveLine l = none :=
      List.findSome?_eq_none_iff.mp h l hl
    unfold checkReceiveLine at hnone
    split_ifs at hnone with g1 g2 g3 <;> (try simp at hnone) <;> tauto

/-- A successful `maintenance_adjustment` preserves "counter minus ledger sum"
for every item key. -/
theorem maintenanceAdjustment_recon (st : StockState) (oid : Int) (t0 : String)
    (i0 : Int) (q : Int) (c : String)
    (h : (maintenanceAdjustment st oid t0 i0 q c).ok = true)
    (t : String) (i : Int) :
    totalStockAt (maintenanceAdjustment st oid t0 i0 q c).state t i
      - movementSum (maintenanceAdjustment st oid t0 i0 q c).state.movements t i
      = totalStockAt st t i - movementSum st.movements t i := by
  unfold maintenanceAdjustment at h ⊢
  cases hval : validateMaintenanceInputs oid t0 i0 q c with
  | some e =>
    rw [hval] at h
    try simp at h
  | none =>
    rw [hval] at h
    obtain ⟨ht0, hc⟩ := validateMaintenanceInputs_none oid t0 i0 q c hval
    cases hgi : getItem st t0 i0 with
    | none =>
      rw [hgi] at h
      try simp at h
    | some item =>
      rw [hgi] at h
      dsimp only at h ⊢
      cases huok : (updateItemStock item q c).ok with
      | false =>
        rw [huok] at h
        try simp at h
      | true =>
        rw [if_pos rfl]
        have htot := updateItemStock_ok_total item q c hc huok
        exact totalMinusSum_step st t0 i0 item _ q _ hgi htot rfl rfl rfl t i

/-- The `send_items` per-line loop preserves "counter minus ledger sum" when
it succeeds. -/
theorem sendLoop_recon (saId : Int) (lines : List SendLine) :
    ∀ st : StockState, (sendLoop saId st lines).ok = true →
    ∀ (t : String) (i : Int),
    totalStockAt (sendLoop saId st lines).state t i
      - movementSum (sendLoop saId st lines).state.movements t i
      = totalStockAt st t i - movementSum st.movements t i := by
  induction lines with
  | nil =>
    intro st hok t i
    rfl
  | cons l rest ih =>
    intro st hok t i
    unfold sendLoop at hok ⊢
    cases hgi : getItem st l.item_type l.item_id with
    | none =>
      rw [hgi] at hok
      try simp at hok
    | some item =>
      rw [hgi] at hok
      dsimp only at hok ⊢
      by_cases hv : item.get_valid_stock < l.quantity
      · rw [if_pos hv] at hok
        try simp at hok
      · rw [if_neg hv] at hok ⊢
        cases huok : (updateItemStock item (-l.quantity) "valid").ok with
        | false =>
          rw [huok] at hok
          try simp at hok
        | true =>
          rw [huok] at hok
          rw [if_pos rfl] at hok ⊢
          have htot := updateItemStock_ok_total item (-l.quantity) "valid"
            (Or.inl rfl) huok
          have hstep := totalMinusSum_step st l.item_type l.item_id item
            ((updateItemStock item (-l.quantity) "valid").item) (-l.quantity)
            { item_type := l.item_type, item_id := l.item_id,
              quantity_change := -l.quantity, movement_type := .send,
              condition := .valid, order_id := none,
              service_action_id := some saId }
            hgi htot rfl rfl rfl
          have hrec := ih _ hok t i
          rw [hrec]
          rw [totalStockAt_upsertSent, upsertSent_movements]
          exact hstep t i

/-- The shared receive per-line loop preserves "counter minus ledger sum" when
it succeeds, provided every line's condition is valid or damaged (which the
validator guarantees). -/
theorem receiveLoop_recon (saId : Int) (lines : List ReceiveLine) :
    ∀ st : StockState,
    (∀ l ∈ lines, l.condition = "valid" ∨ l.condition = "damaged") →
    (receiveLoop saId st lines).ok = true →
    ∀ (t : String) (i : Int),
    totalStockAt (receiveLoop saId st lines).state t i
      - movementSum (receiveLoop saId st lines).state.movements t i
      = totalStockAt st t i - movementSum st.movements t i := by
  induction lines with
  | nil =>
    intro st hcond hok t i
    rfl
  | cons l rest ih =>
    intro st hcond hok t i
    have hc : l.condition = "valid" ∨ l.condition = "damaged" :=
      hcond l (List.mem_cons_self l rest)
    unfold receiveLoop at hok ⊢
    cases hgi : getItem st l.item_type l.item_id with
    | none =>
      rw [hgi] at hok
      try simp at hok
    | some item =>
      rw [hgi] at hok
      dsimp only at hok ⊢
      cases huok : (updateItemStock item l.quantity l.condition).ok with
      | false =>
        rw [huok] at hok
        try simp at hok
      | true =>
        rw [huok] at hok
        rw [if_pos rfl] at hok ⊢
        have htot := updateItemStock_ok_total item l.quantity l.condition hc huok
        have hstep := totalMinusSum_step st l.item_type l.item_id item
          ((updateItemStock item l.quantity l.condition).item) l.quantity
          { item_type := l.item_type, item_id := l.item_id,
            quantity_change := l.quantity, movement_type := .receive_mv,
            condition := if l.condition = "valid" then .valid else .damaged,
            order_id := none, service_action_id := some saId }
          hgi htot rfl rfl rfl
        have hrec := ih _ (fun x hx => hcond x (List.mem_cons_of_mem l hx)) hok t i
        rw [hrec]
        rw [totalStockAt_upsertReceived, upsertReceived_movements]
        exact hstep t i

/-- Every successful stock operation preserves "counter minus ledger sum". -/
theorem applyStockOp_recon (st : StockState) (op : StockOp)
    (h : (applyStockOp st op).ok = true) (t : String) (i : Int) :
    totalStockAt (applyStockOp st op).state t i
      - movementSum (applyStockOp st op).state.movements t i
      = totalStockAt st t i - movementSum st.movements t i := by
  cases op with
  | maint oid t0 i0 q c =>
    exact maintenanceAdjustment_recon st oid t0 i0 q c h t i
  | send sa ls =>
    simp only [applyStockOp, sendItems] at h ⊢
    cases hla : lookupSA st sa with
    | none =>
      rw [hla] at h
      try simp at h
    | some s0 =>
      rw [hla] at h
      cases hvl : validateSendInputs ls with
      | some e =>
        rw [hvl] at h
        try simp at h
      | none =>
        rw [hvl] at h
        exact sendLoop_recon sa ls st h t i
  | receive_op sa ls =>
    simp only [applyStockOp, receiveItems] at h ⊢
    cases hla : lookupSA st sa with
    | none =>
      rw [hla] at h
      try simp at h
    | some s0 =>
      rw [hla] at h
      cases hvl : validateReceiveInputs ls with
      | some e =>
        rw [hvl] at h
        try simp at h
      | none =>
        rw [hvl] at h
        exact receiveLoop_recon sa ls st
          (validateReceiveInputs_none_mem ls hvl) h t i
  | receiveRet sa ls =>
    simp only [applyStockOp, receiveReturns] at h ⊢
    cases hla : lookupSA st sa with
    | none =>
      rw [hla] at h
      try simp at h
    | some s0 =>
      rw [hla] at h
      cases hvl : validateReceiveInputs ls with
      | some e =>
        rw [hvl] at h
        try simp at h
      | none =>
        rw [hvl] at h
        exact receiveLoop_recon sa ls st
          (validateReceiveInputs_none_mem ls hvl) h t i

theorem runStockOps_recon (st : StockState) (ops : List StockOp) (t : String)
    (i : Int) (hs : stockOpsSucceed st ops = true) :
    totalStockAt (runStockOps st ops) t i
      - movementSum (runStockOps st ops).movements t i
      = totalStockAt st t i - movementSum st.movements t i := by
  induction ops generalizing st with
  | nil => rfl
  | cons op rest ih =>
    unfold stockOpsSucceed at hs
    rw [Bool.and_eq_true] at hs
    obtain ⟨h1, h2⟩ := hs
    unfold runStockOps
    rw [ih _ h2]
    exact applyStockOp_recon st op h1 t i

/-- Counterexample to C5 as stated over all sequences: a sequence containing
one rejected maintenance adjustment (−4 `valid` on an item at total 5 /
damaged 3) changes `current_stock` without recording any ledger row, so the
counter no longer equals the initial stock plus the ledger sum. -/
theorem c5_reconciliation_fails_on_rejected_call :
    stateFiveThree.movements = [] ∧
    totalStockAt stateFiveThree "product" 1 = 5 ∧
    totalStockAt
        (runStockOps stateFiveThree [.maint 1 "product" 1 (-4) "valid"])
        "product" 1 = 1 ∧
    movementSum
        (runStockOps stateFiveThree [.maint 1 "product" 1 (-4) "valid"]).movements
        "product" 1 = 0 ∧
    ¬ (totalStockAt
          (runStockOps stateFiveThree [.maint 1 "product" 1 (-4) "valid"])
          "product" 1
        = totalStockAt stateFiveThree "product" 1
          + movementSum
              (runStockOps stateFiveThree [.maint 1 "product" 1 (-4) "valid"]).movements
              "product" 1) := by
  decide

/-- C5 (amended): for every sequence of stock operations in which every call
succeeds, and every item, the final `current_stock` equals the initial stock
plus the sum of `quantity_change` over all recorded ledger rows — every
successful counter mutation is paired with exactly one matching ledger row. -/
theorem c5_reconciliation_for_successful_sequences (st : StockState)
    (ops : List StockOp) (t : String) (i : Int)
    (hs : stockOpsSucceed st ops = true) (hm : st.movements = []) :
    totalStockAt (runStockOps st ops) t i
      = totalStockAt st t i
        + movementSum (runStockOps st ops).movements t i := by
  have hrec := runStockOps_recon st ops t i hs
  rw [hm] at hrec
  have h0 : movementSum ([] : List StockMovementRow) t i = 0 := rfl
  omega

/-- Witness for C5 (amended): Scenario A run end-to-end — send 5 and receive
5 damaged all succeed, and the final counter 20 equals 20 + (−5 + 5). -/
theorem c5_reconciliation_for_successful_sequences_witness :
    stockOpsSucceed stateTwentyTwo
      [.send 1 [⟨"product", 1, 5⟩],
       .receive_op 1 [⟨"product", 1, 5, "damaged"⟩]] = true ∧
    stateTwentyTwo.movements = [] ∧
    totalStockAt
        (runStockOps stateTwentyTwo
          [.send 1 [⟨"product", 1, 5⟩],
           .receive_op 1 [⟨"product", 1, 5, "damaged"⟩]]) "product" 1
      = totalStockAt stateTwentyTwo "product" 1
        + movementSum
            (runStockOps stateTwentyTwo
              [.send 1 [⟨"product", 1, 5⟩],
               .receive_op 1 [⟨"product", 1, 5, "damaged"⟩]]).movements
            "product" 1 :=
  ⟨by decide, rfl,
    c5_reconciliation_for_successful_sequences stateTwentyTwo
      [.send 1 [⟨"product", 1, 5⟩],
       .receive_op 1 [⟨"product", 1, 5, "damaged"⟩]] "product" 1
      (by decide) rfl⟩
